import Mathlib

/-!
Verification development for the FK question-answering service
(two pipelines: Solution 1 built on the hosted file-search API, Solution 2
built on a self-hosted vector store), shallowly embedded in Lean 4.

Conventions of the embedding:
* JavaScript strings are modelled as Lean `String`; `String.trim` and
  `Char.isWhitespace` stand for the JS whitespace handling.
* Millisecond timestamps (`Date.now()`, `getTime()` of stored ISO strings)
  are modelled as `Nat`.
* Dollar amounts are modelled as exact rationals.
* A JS `Map` is modelled as an association list in insertion order with
  unique keys (the `Map` invariant); `mapGet`, `mapSet`, `mapDelete`
  mirror `get`, `set`, `delete`.
* Values read from a JSON request body may be absent or have the wrong
  type; `JSInput` distinguishes a present string from everything else.
-/

namespace FK

/-- JS `String.prototype.trim`: drop leading and trailing whitespace.
Defined structurally over the character list so that it evaluates
inside the kernel. -/
def jsTrim (s : String) : String :=
  ⟨((s.data.dropWhile Char.isWhitespace).reverse.dropWhile Char.isWhitespace).reverse⟩

/-- JS `String.prototype.startsWith`, structurally. -/
def jsStartsWith (s pre : String) : Bool :=
  pre.data.isPrefixOf s.data

/-- A value taken from a JSON request body: a string, a missing/falsy
value (`undefined`, `null`, `""`, `0`, `false`), or some other truthy
non-string value.  Mirrors the checks the validators perform with
`!value` and `typeof value !== 'string'`. -/
inductive JSInput where
  | missing
  | str (s : String)
  | nonStringTruthy
deriving DecidableEq, Repr

/-- Return shape of all validators: an object with fields `valid` and
`error` (`error` is `null` exactly when represented by `none`). -/
structure ValidationResult where
  valid : Bool
  error : Option String
deriving DecidableEq, Repr

/-- `Validators.validateQuery` (src/shared/utils/validators.js, lines 45-60):
reject missing or non-string values, the empty string (falsy in JS),
whitespace-only strings, and strings whose trimmed length exceeds 1000. -/
def validateQuery : JSInput → ValidationResult
  | JSInput.missing => ⟨false, some "Query must be a non-empty string"⟩
  | JSInput.nonStringTruthy => ⟨false, some "Query must be a non-empty string"⟩
  | JSInput.str s =>
    if s = "" then ⟨false, some "Query must be a non-empty string"⟩
    else if (jsTrim s).length = 0 then ⟨false, some "Query cannot be empty"⟩
    else if (jsTrim s).length > 1000 then
      ⟨false, some "Query too long (max 1000 characters)"⟩
    else ⟨true, none⟩

/-- Character class of the thread-id check, the JS character set
`[a-zA-Z0-9-_]`. -/
def threadIdChar (c : Char) : Bool :=
  (('a' ≤ c && c ≤ 'z') || ('A' ≤ c && c ≤ 'Z') ||
   ('0' ≤ c && c ≤ '9') || c = '-' || c = '_')

/-- `Validators.validateThreadId` (validators.js, lines 67-87): the value
must be a truthy string whose trimmed form is non-empty and matches
the anchored character-class test. -/
def validateThreadId : JSInput → ValidationResult
  | JSInput.missing => ⟨false, some "Thread ID must be a non-empty string"⟩
  | JSInput.nonStringTruthy => ⟨false, some "Thread ID must be a non-empty string"⟩
  | JSInput.str s =>
    if s = "" then ⟨false, some "Thread ID must be a non-empty string"⟩
    else if (jsTrim s).length = 0 then ⟨false, some "Thread ID cannot be empty"⟩
    else if !((jsTrim s).length ≠ 0 && (jsTrim s).data.all threadIdChar) then
      ⟨false,
       some "Thread ID can only contain letters, numbers, hyphens, and underscores"⟩
    else ⟨true, none⟩

/-- `Validators.validateVectorStoreId` (validators.js, lines 94-111): a
truthy string starting with the marker `vs_`. -/
def validateVectorStoreId : JSInput → ValidationResult
  | JSInput.missing => ⟨false, some "Vector Store ID must be a non-empty string"⟩
  | JSInput.nonStringTruthy => ⟨false, some "Vector Store ID must be a non-empty string"⟩
  | JSInput.str s =>
    if s = "" then ⟨false, some "Vector Store ID must be a non-empty string"⟩
    else if !(jsStartsWith s "vs_") then
      ⟨false, some "Invalid Vector Store ID format (should start with vs_)"⟩
    else ⟨true, none⟩

/-- Replace every maximal run of whitespace by a single space; the
accumulator flag records whether the previous character was whitespace,
so a run contributes one space.  Combined with the preceding `trim`, this
is the JS `replace` of the global whitespace-run pattern by a space. -/
def collapseWs : List Char → Bool → List Char
  | [], _ => []
  | c :: rest, prevWs =>
    if c.isWhitespace then
      if prevWs then collapseWs rest true
      else ' ' :: collapseWs rest true
    else c :: collapseWs rest false

/-- `Validators.sanitizeQuery` (validators.js, lines 118-120):
`query.trim()` followed by collapsing each whitespace run to a single
space. -/
def sanitizeQuery (q : String) : String :=
  ⟨collapseWs (jsTrim q).data false⟩

/-- The JS expression `threadId || 'default'` used by both query routes,
as a `JSInput` (falsy values are replaced by the string `default`). -/
def jsOrDefault : JSInput → JSInput
  | JSInput.missing => JSInput.str "default"
  | JSInput.str s => if s = "" then JSInput.str "default" else JSInput.str s
  | JSInput.nonStringTruthy => JSInput.nonStringTruthy

/-- The string actually used as the thread key after
`threadId || 'default'`; for a non-string truthy value validation has
already rejected the request, so the fallback value is irrelevant. -/
def jsOrDefaultStr : JSInput → String
  | JSInput.str s => if s = "" then "default" else s
  | _ => "default"

/-- `ErrorHandler.calculateBackoff` of Solution 1
(src/solution1/utils/errorHandler.js): exponential backoff from a one
second base, capped at sixty seconds. -/
def sol1CalculateBackoff (retryCount : Nat) : Nat :=
  min (1000 * 2 ^ retryCount) 60000

/-- `ErrorHandler.calculateBackoff` of Solution 2
(src/solution2/utils/errorHandler.js, lines 134-136): same shape, capped
at thirty seconds. -/
def sol2CalculateBackoff (attemptNumber : Nat) : Nat :=
  min (1000 * 2 ^ attemptNumber) 30000

/-- Token usage object of a hosted `responses.create` call. -/
structure APIUsage where
  input_tokens : Nat
  output_tokens : Nat
deriving DecidableEq, Repr

/-- Response object of a hosted `responses.create` call, as far as the
local code reads it: id, output text, usage. -/
structure APIResponse where
  id : String
  output_text : String
  usage : APIUsage
deriving DecidableEq, Repr

/-- The usage object assembled by `ResponseService.query`. -/
structure QueryUsage where
  input_tokens : Nat
  output_tokens : Nat
  total_tokens : Nat
  estimated_cost : ℚ
deriving DecidableEq, Repr

/-- Return object of `ResponseService.query`. -/
structure QueryResult where
  success : Bool
  fileAnswer : String
  webAnswer : String
  fileResponseId : String
  webResponseId : String
  model : String
  usage : QueryUsage
  timestamp : Nat
deriving DecidableEq, Repr

/-- `ResponseService.query` (src/solution1/services/responseService.js,
lines 25-84), as a function of the two remote responses obtained by the
parallel `fileSearch` and `webSearch` calls.  Token totals are the sums
of the per-call usages, and the cost is
`(totalInput / 1e6) * 0.15 + (totalOutput / 1e6) * 0.6` dollars. -/
def responseServiceQuery (fileResponse webResponse : APIResponse) (now : Nat) :
    QueryResult :=
  let totalInputTokens :=
    fileResponse.usage.input_tokens + webResponse.usage.input_tokens
  let totalOutputTokens :=
    fileResponse.usage.output_tokens + webResponse.usage.output_tokens
  let inputCost : ℚ := ((totalInputTokens : ℚ) / 1000000) * 0.15
  let outputCost : ℚ := ((totalOutputTokens : ℚ) / 1000000) * 0.6
  let totalCost := inputCost + outputCost
  { success := true
    fileAnswer := fileResponse.output_text
    webAnswer := webResponse.output_text
    fileResponseId := fileResponse.id
    webResponseId := webResponse.id
    model := "gpt-4o-mini"
    usage :=
      { input_tokens := totalInputTokens
        output_tokens := totalOutputTokens
        total_tokens := totalInputTokens + totalOutputTokens
        estimated_cost := totalCost }
    timestamp := now }

/-- `Map.get`: the value of the first (under the unique-key invariant,
the only) entry with the given key. -/
def mapGet {α : Type} : List (String × α) → String → Option α
  | [], _ => none
  | (k, v) :: rest, t => if k = t then some v else mapGet rest t

/-- `Map.set`: replace the value of the existing entry in place, or
append a new entry in insertion order. -/
def mapSet {α : Type} : List (String × α) → String → α → List (String × α)
  | [], t, c => [(t, c)]
  | (k, v) :: rest, t, c =>
    if k = t then (t, c) :: rest else (k, v) :: mapSet rest t c

/-- `Map.delete`: remove the entry with the given key. -/
def mapDelete {α : Type} : List (String × α) → String → List (String × α)
  | [], _ => []
  | (k, v) :: rest, t => if k = t then rest else (k, v) :: mapDelete rest t

/-- One question/answer turn as pushed by the Solution 1
`MemoryService.saveResponse`: the previous-response id, the query text,
both answers, the usage object, and the timestamp. -/
structure Sol1Turn where
  responseId : String
  query : String
  fileAnswer : String
  webAnswer : String
  usage : QueryUsage
  timestamp : Nat
deriving DecidableEq, Repr

/-- One question/answer turn as pushed by the Solution 2 RAG
`MemoryService.saveResponse`; the optional `model`/`responseTime`
fields come from the metadata spread. -/
structure Sol2Turn where
  query : String
  fileAnswer : String
  webAnswer : String
  usageInputTokens : Nat
  usageOutputTokens : Nat
  usageCost : ℚ
  timestamp : Nat
  model : Option String
  responseTime : Option ℚ
deriving DecidableEq, Repr

/-- A per-thread conversation record (both MemoryService variants):
thread id, ordered history, creation time, last-update time. -/
structure Conversation (τ : Type) where
  threadId : String
  history : List τ
  createdAt : Nat
  lastUpdated : Nat
deriving DecidableEq, Repr

/-- The `conversations` map of the Solution 1 memory service. -/
abbrev Sol1Store := List (String × Conversation Sol1Turn)

/-- The `conversations` map of the Solution 2 RAG memory service. -/
abbrev Sol2Store := List (String × Conversation Sol2Turn)

/-- Solution 1 `MemoryService.saveResponse` (lines 608-637 of the service
file): create the conversation record on first use, push the new entry,
refresh `lastUpdated`. -/
def sol1SaveResponse (st : Sol1Store) (threadId responseId query fileAnswer webAnswer : String)
    (usage : QueryUsage) (now : Nat) : Sol1Store :=
  let conv : Conversation Sol1Turn :=
    match mapGet st threadId with
    | none => { threadId := threadId, history := [], createdAt := now, lastUpdated := now }
    | some c => c
  mapSet st threadId
    { conv with
      history := conv.history ++
        [{ responseId := responseId, query := query, fileAnswer := fileAnswer,
           webAnswer := webAnswer, usage := usage, timestamp := now }]
      lastUpdated := now }

/-- Solution 2 RAG `MemoryService.saveResponse` (part of the solution2
services, lines 28-57): same save discipline, different turn shape. -/
def sol2SaveResponse (st : Sol2Store) (threadId : String) (turn : Sol2Turn)
    (now : Nat) : Sol2Store :=
  let conv : Conversation Sol2Turn :=
    match mapGet st threadId with
    | none => { threadId := threadId, history := [], createdAt := now, lastUpdated := now }
    | some c => c
  mapSet st threadId
    { conv with history := conv.history ++ [turn], lastUpdated := now }

/-- `MemoryService.clearHistory` (Solution 2 RAG memory service, lines
141-148; the Solution 1 variant is identical): delete the thread's
conversation if present and report whether one existed. -/
def clearHistory (st : Sol2Store) (threadId : String) : Bool × Sol2Store :=
  if (mapGet st threadId).isSome then (true, mapDelete st threadId)
  else (false, st)

/-- `MemoryService.cleanupOldConversations` (Solution 2 RAG memory
service, lines 200-219): delete every conversation whose `lastUpdated`
lies more than `maxAgeHours` hours before `now`, and count the
deletions.  The loop deletes while iterating, so the surviving map is
the original filtered by recency, in order. -/
def cleanupOldConversations (st : Sol2Store) (maxAgeHours : Nat) (now : Nat) :
    Sol2Store × Nat :=
  let maxAge := maxAgeHours * 60 * 60 * 1000
  ((st.filter fun p => !(now - p.2.lastUpdated > maxAge)),
   (st.filter fun p => now - p.2.lastUpdated > maxAge).length)

/-- One message as pushed by the agent-style
`MemoryService.saveConversation`
(src/solution2/services/memoryService.js). -/
structure AgentTurn where
  query : String
  answer : String
  timestamp : Nat
deriving DecidableEq, Repr

/-- The `conversations` map of the agent-style memory service: thread id
to plain message list. -/
abbrev AgentStore := List (String × List AgentTurn)

/-- `MemoryService.saveConversation`
(src/solution2/services/memoryService.js, lines 27-44): push the new
entry, then `splice` away everything but the last 20 entries. -/
def saveConversation (st : AgentStore) (threadId query answer : String)
    (now : Nat) : AgentStore :=
  let conversation := (mapGet st threadId).getD []
  let grown := conversation ++ [{ query := query, answer := answer, timestamp := now }]
  let bounded := if grown.length > 20 then grown.drop (grown.length - 20) else grown
  mapSet st threadId bounded

/-- A document chunk as returned by `pdfService.search`: content plus
source metadata. -/
structure RetrievedDoc where
  content : String
  source : String
deriving DecidableEq, Repr

/-- `fileSearch` result object of the RAG service (solution2 ragService,
lines 74-96): document list, top document, embedding-cost info. -/
structure FileSearchOutcome where
  documents : List RetrievedDoc
  topDocument : Option RetrievedDoc
  embeddingCostTokens : Nat
deriving DecidableEq, Repr

/-- `RAGService.fileSearch`: wrap the `pdfService.search` hit list; with
no hits the fields are empty, otherwise the first (highest-scoring)
document is the top document. -/
def ragFileSearch (query : String) (docs : List RetrievedDoc) : FileSearchOutcome :=
  { documents := docs
    topDocument := docs.head?
    embeddingCostTokens := (query.length + 3) / 4 }

/-- A raw Tavily search hit; each field may be absent. -/
structure RawWebHit where
  title : Option String
  url : Option String
  content : Option String
  snippet : Option String
deriving DecidableEq, Repr

/-- Outcome of the `tavilySearch.invoke` call: a parsed hit list, or a
thrown error. -/
inductive TavilyOutcome where
  | ok (hits : List RawWebHit)
  | err
deriving DecidableEq, Repr

/-- A normalized web result (solution2 ragService, lines 111-117). -/
structure WebResult where
  id : Nat
  title : String
  url : String
  content : String
deriving DecidableEq, Repr

/-- JS `a || b` on an optional string: empty strings are falsy. -/
def strOr (a : Option String) (b : String) : String :=
  match a with
  | some s => if s = "" then b else s
  | none => b

/-- `RAGService.webSearch` (solution2 ragService, lines 101-130): map
each hit to `{id, title, url, content}` with fallbacks; any thrown
error is caught and turned into an empty result list. -/
def ragWebSearch : TavilyOutcome → List WebResult
  | TavilyOutcome.err => []
  | TavilyOutcome.ok hits =>
    (hits.enum.map fun p =>
      { id := p.1 + 1
        title := strOr p.2.title "No title"
        url := strOr p.2.url ""
        content := strOr p.2.content (strOr p.2.snippet "") })

/-- Return object of `RAGService.generateAnswer`. -/
structure AnswerResult where
  answer : String
  usedModel : String
  inputTokens : Nat
  outputTokens : Nat
  estimatedCost : ℚ
deriving DecidableEq, Repr

/-- Observable events of a query pipeline, in execution order.  The two
search calls are issued together inside one parallel await
(`Promise.all`), which completes only when both have; the trace records
that block as start/start/end/end.  `llmSynthesis` carries the exact
context and question strings handed to the local LLM chain. -/
inductive Ev where
  | validate (accepted : Bool)
  | startFileSearch
  | startWebSearch
  | endFileSearch
  | endWebSearch
  | llmSynthesis (context : String) (question : String)
  | respond
deriving DecidableEq, Repr

/-- Whether an event is a local LLM synthesis invocation. -/
def Ev.isLLMSynthesis : Ev → Bool
  | Ev.llmSynthesis _ _ => true
  | _ => false

/-- Whether a trace performs a local LLM synthesis step. -/
def hasLLMStep (tr : List Ev) : Bool := tr.any Ev.isLLMSynthesis

/-- `RAGService.generateAnswer` (solution2 ragService, lines 135-191):
the prompt context is exactly the retrieved document contents joined
with blank lines; the LLM (an oracle of context and question) produces
the answer; token counts are the ceil-divide-by-4 estimates and the
cost is `(in * 0.15 + out * 0.6) / 1e6` dollars.  Also returns the
synthesis event. -/
def generateAnswer (llm : String → String → String) (query : String)
    (fileSearchResults : FileSearchOutcome) : AnswerResult × List Ev :=
  let context := String.intercalate "\n\n"
    (fileSearchResults.documents.map RetrievedDoc.content)
  let answer := llm context query
  let inputTokens := (context.length + 3) / 4
  let outputTokens := (answer.length + 3) / 4
  ({ answer := answer
     usedModel := "gpt-4o-mini"
     inputTokens := inputTokens
     outputTokens := outputTokens
     estimatedCost := ((inputTokens : ℚ) * 0.15 + (outputTokens : ℚ) * 0.6) / 1000000 },
   [Ev.llmSynthesis context query])

/-- Result object of `RAGService.query` (the fields the route reads). -/
structure RagResult where
  answer : String
  model : String
  sourceDocument : Option RetrievedDoc
  totalDocuments : Nat
  webTopResult : Option WebResult
  webTotalResults : Nat
  usageInputTokens : Nat
  usageOutputTokens : Nat
deriving DecidableEq, Repr

/-- `RAGService.query` (solution2 ragService, lines 196-254):
`fileSearch` and `webSearch` run inside one `Promise.all`, then
`generateAnswer` runs on the file-search results alone, and the
response object combines the answer, the top retrieved document, and
the top web result.  The second component is the event trace. -/
def ragQuery (llm : String → String → String) (query : String)
    (docs : List RetrievedDoc) (web : TavilyOutcome) : RagResult × List Ev :=
  let fileSearchResults := ragFileSearch query docs
  let webSearchResults := ragWebSearch web
  let searchEvs := [Ev.startFileSearch, Ev.startWebSearch,
                    Ev.endFileSearch, Ev.endWebSearch]
  let answerStep := generateAnswer llm query fileSearchResults
  ({ answer := answerStep.1.answer
     model := answerStep.1.usedModel
     sourceDocument := fileSearchResults.topDocument
     totalDocuments := fileSearchResults.documents.length
     webTopResult := webSearchResults.head?
     webTotalResults := webSearchResults.length
     usageInputTokens := answerStep.1.inputTokens
     usageOutputTokens := answerStep.1.outputTokens },
   searchEvs ++ answerStep.2 ++ [Ev.respond])

/-- `POST /api/solution2/query` (solution2 routes, lines 15-75): inline
validation (`!query`, type check, trimmed emptiness), thread-id
validation, sanitization, then `ragService.query` on the sanitized
query.  Returns the result (when accepted) and the event trace. -/
def sol2QueryEndpoint (query threadId : JSInput) (llm : String → String → String)
    (docs : List RetrievedDoc) (web : TavilyOutcome) :
    Option RagResult × List Ev :=
  match query with
  | JSInput.str s =>
    if s ≠ "" ∧ (jsTrim s).length ≠ 0 then
      if (validateThreadId (jsOrDefault threadId)).valid then
        let r := ragQuery llm (sanitizeQuery s) docs web
        (some r.1, Ev.validate true :: r.2)
      else (none, [Ev.validate false])
    else (none, [Ev.validate false])
  | _ => (none, [Ev.validate false])

/-- Request body of `POST /api/solution1/query`. -/
structure Sol1Request where
  query : JSInput
  vectorStoreId : JSInput
  threadId : JSInput
deriving DecidableEq, Repr

/-- Outcome of the Solution 1 query route: a 400 rejection with the
validator's error, or the query result plus the updated memory store. -/
inductive Sol1Outcome where
  | rejected (error : String)
  | ok (store : Sol1Store) (result : QueryResult)
deriving DecidableEq, Repr

/-- `POST /api/solution1/query` (solution1 routes, lines 346-414):
validate query, vector-store id, and `threadId || 'default'`; sanitize
the query; run `responseService.query` (whose two remote calls are the
oracle responses); save the turn under the thread key via
`memoryService.saveResponse`.  The second component is the event
trace of the accepted pipeline (no local LLM synthesis occurs: both
remote calls return their own `output_text`). -/
def sol1QueryEndpoint (req : Sol1Request) (st : Sol1Store)
    (fileResponse webResponse : APIResponse) (now : Nat) :
    Sol1Outcome × List Ev :=
  match req.query with
  | JSInput.str s =>
    let vq := validateQuery (JSInput.str s)
    if vq.valid then
      let vv := validateVectorStoreId req.vectorStoreId
      if vv.valid then
        let vt := validateThreadId (jsOrDefault req.threadId)
        if vt.valid then
          let sanitized := sanitizeQuery s
          let finalThreadId := jsOrDefaultStr req.threadId
          let result := responseServiceQuery fileResponse webResponse now
          let st2 := sol1SaveResponse st finalThreadId result.fileResponseId
            sanitized result.fileAnswer result.webAnswer result.usage now
          (Sol1Outcome.ok st2 result,
           [Ev.validate true, Ev.startFileSearch, Ev.startWebSearch,
            Ev.endFileSearch, Ev.endWebSearch, Ev.respond])
        else (Sol1Outcome.rejected (vt.error.getD ""), [Ev.validate false])
      else (Sol1Outcome.rejected (vv.error.getD ""), [Ev.validate false])
    else (Sol1Outcome.rejected (vq.error.getD ""), [Ev.validate false])
  | JSInput.missing =>
    (Sol1Outcome.rejected "Query must be a non-empty string", [Ev.validate false])
  | JSInput.nonStringTruthy =>
    (Sol1Outcome.rejected "Query must be a non-empty string", [Ev.validate false])

/-- Combined state of the Solution 2 singletons (`RAGService` and
`PDFService`): created objects are represented by handles allocated
from a counter, so re-creation of a resource is observable as a handle
change.  `ragReady` is `RAGService.isInitialized`, `pdfReady` is
`PDFService.isInitialized`. -/
structure Sol2InitState where
  counter : Nat
  llm : Option Nat
  tavilySearch : Option Nat
  ragReady : Bool
  pdfReady : Bool
  supabaseClient : Option Nat
  embeddings : Option Nat
  vectorStore : Option Nat
deriving DecidableEq, Repr

/-- Remote or resource-creating actions performed during startup. -/
inductive InitAct where
  | createLLM
  | createTavily
  | createClient
  | checkData
  | createEmbeddings
  | connectStore
deriving DecidableEq, Repr

/-- `PDFService.initializeSupabase` (solution2 pdfService, lines 27-42):
reuse the cached client, or create one when the environment variables
are set, else throw. -/
def initSupabase (st : Sol2InitState) (envOk : Bool) :
    Except String (Sol2InitState × List InitAct × Nat) :=
  match st.supabaseClient with
  | some c => Except.ok (st, [], c)
  | none =>
    if envOk then
      Except.ok
        ({ st with supabaseClient := some st.counter, counter := st.counter + 1 },
         [InitAct.createClient], st.counter)
    else Except.error "SUPABASE_URL and SUPABASE_API_KEY must be set"

/-- `PDFService.checkSupabaseDataExists` (pdfService, lines 48-75): count
rows in the embeddings table; every failure (including a client
creation failure) is caught and reported as no data. -/
def checkSupabaseDataExists (st : Sol2InitState) (envOk hasData : Bool) :
    Sol2InitState × List InitAct × Bool :=
  match initSupabase st envOk with
  | Except.error _ => (st, [], false)
  | Except.ok (st1, acts, _) => (st1, acts ++ [InitAct.checkData], hasData)

/-- `PDFService.initializeEmbeddings` (pdfService, lines 82-91): reuse or
create the embeddings object. -/
def initEmbeddings (st : Sol2InitState) : Sol2InitState × List InitAct × Nat :=
  match st.embeddings with
  | some e => (st, [], e)
  | none =>
    ({ st with embeddings := some st.counter, counter := st.counter + 1 },
     [InitAct.createEmbeddings], st.counter)

/-- `PDFService.loadPDF` (pdfService, lines 101-144): return the cached
vector store when already connected; otherwise check that data exists,
set up client and embeddings, and connect to the existing index.
`envOk` and `hasData` are the environment/remote oracles. -/
def loadPDF (st : Sol2InitState) (envOk hasData : Bool) :
    Except String (Sol2InitState × List InitAct × Nat) :=
  if st.pdfReady ∧ st.vectorStore.isSome then
    Except.ok (st, [], st.vectorStore.getD 0)
  else
    let checked := checkSupabaseDataExists st envOk hasData
    if !checked.2.2 then Except.error "No embeddings found in Supabase"
    else
      match initSupabase checked.1 envOk with
      | Except.error e => Except.error e
      | Except.ok (st2, acts2, _) =>
        let emb := initEmbeddings st2
        let vs := emb.1.counter
        Except.ok
          ({ emb.1 with
             vectorStore := some vs
             counter := emb.1.counter + 1
             pdfReady := true },
           checked.2.1 ++ acts2 ++ emb.2.1 ++ [InitAct.connectStore], vs)

/-- `RAGService.initialize` (solution2 ragService, lines 28-69): a
no-op once initialized; otherwise create the LLM and the Tavily tool,
connect the PDF service when it is not yet ready, and mark the service
initialized. -/
def ragInit (st : Sol2InitState) (envOk hasData : Bool) :
    Except String (Sol2InitState × List InitAct) :=
  if st.ragReady then Except.ok (st, [])
  else
    let st1 := { st with llm := some st.counter, counter := st.counter + 1 }
    let st2 := { st1 with tavilySearch := some st1.counter, counter := st1.counter + 1 }
    let acts := [InitAct.createLLM, InitAct.createTavily]
    if st2.pdfReady then Except.ok ({ st2 with ragReady := true }, acts)
    else
      match loadPDF st2 envOk hasData with
      | Except.error e => Except.error e
      | Except.ok (st3, acts2, _) =>
        Except.ok ({ st3 with ragReady := true }, acts ++ acts2)

/-- C4: `Validators.validateQuery` reports valid exactly when the input
is a string whose trimmed form is non-empty and at most 1000
characters long — so every other input (missing, non-string,
whitespace-only, over-long) gets `valid = false`; moreover the error
field is null exactly on the valid outcome and a non-null message on
every invalid one. -/
theorem validateQuery_spec (i : JSInput) :
    ((validateQuery i).valid = true ↔
      ∃ s, i = JSInput.str s ∧ 0 < (jsTrim s).length ∧ (jsTrim s).length ≤ 1000) ∧
    ((validateQuery i).valid = true → (validateQuery i).error = none) ∧
    ((validateQuery i).valid = false → (validateQuery i).error ≠ none) := by
  cases i with
  | missing => simp [validateQuery]
  | nonStringTruthy => simp [validateQuery]
  | str s =>
    by_cases h0 : s = ""
    · subst h0
      refine ⟨?_, ?_, ?_⟩
      · simp [validateQuery]
        decide
      · simp [validateQuery]
      · simp [validateQuery]
    · by_cases h1 : (jsTrim s).length = 0
      · refine ⟨?_, ?_, ?_⟩
        · simp [validateQuery, h0, h1]
        · simp [validateQuery, h0, h1]
        · simp [validateQuery, h0, h1]
      · by_cases h2 : (jsTrim s).length > 1000
        · refine ⟨?_, ?_, ?_⟩
          · simp [validateQuery, h0, h1, h2]
          · simp [validateQuery, h0, h1, h2]
          · simp [validateQuery, h0, h1, h2]
        · refine ⟨?_, ?_, ?_⟩
          · simp [validateQuery, h0, h1, h2]
            omega
          · simp [validateQuery, h0, h1, h2]
          · simp [validateQuery, h0, h1, h2]

/-- C6: the usage object returned by a successful Solution 1 query sums
the two remote calls' token counts, totals them, and prices them at
0.15 dollars per million input tokens and 0.60 dollars per million
output tokens. -/
theorem sol1_usage_accounting (fr wr : APIResponse) (now : Nat) :
    (responseServiceQuery fr wr now).usage.input_tokens =
        fr.usage.input_tokens + wr.usage.input_tokens ∧
    (responseServiceQuery fr wr now).usage.output_tokens =
        fr.usage.output_tokens + wr.usage.output_tokens ∧
    (responseServiceQuery fr wr now).usage.total_tokens =
        (responseServiceQuery fr wr now).usage.input_tokens +
        (responseServiceQuery fr wr now).usage.output_tokens ∧
    (responseServiceQuery fr wr now).usage.estimated_cost =
      (((responseServiceQuery fr wr now).usage.input_tokens : ℚ) * 0.15 +
        ((responseServiceQuery fr wr now).usage.output_tokens : ℚ) * 0.6) / 1000000 := by
  refine ⟨rfl, rfl, rfl, ?_⟩
  simp only [responseServiceQuery]
  push_cast
  ring

/-- C7: both retry handlers compute the delay
`min (1000 * 2 ^ n) cap` milliseconds (cap 60000 ms in Solution 1,
30000 ms in Solution 2); the delay is nondecreasing in the retry count
and never exceeds the cap. -/
theorem calculateBackoff_spec (m n : Nat) (h : m ≤ n) :
    sol1CalculateBackoff n = min (1000 * 2 ^ n) 60000 ∧
    sol2CalculateBackoff n = min (1000 * 2 ^ n) 30000 ∧
    sol1CalculateBackoff m ≤ sol1CalculateBackoff n ∧
    sol2CalculateBackoff m ≤ sol2CalculateBackoff n ∧
    sol1CalculateBackoff n ≤ 60000 ∧
    sol2CalculateBackoff n ≤ 30000 := by
  have hpow : 1000 * 2 ^ m ≤ 1000 * 2 ^ n :=
    Nat.mul_le_mul_left 1000 (Nat.pow_le_pow_right (by norm_num) h)
  exact ⟨rfl, rfl,
    min_le_min hpow le_rfl,
    min_le_min hpow le_rfl,
    min_le_right _ _,
    min_le_right _ _⟩

/-- Closed instance of the backoff property at retry counts 2 and 9. -/
theorem calculateBackoff_spec_witness :
    sol1CalculateBackoff 2 ≤ sol1CalculateBackoff 9 ∧
    sol2CalculateBackoff 2 ≤ sol2CalculateBackoff 9 ∧
    sol1CalculateBackoff 9 ≤ 60000 ∧
    sol2CalculateBackoff 9 ≤ 30000 := by
  obtain ⟨-, -, h1, h2, h3, h4⟩ := calculateBackoff_spec 2 9 (by decide)
  exact ⟨h1, h2, h3, h4⟩

/-- C9: a failed web search is caught inside `RAGService.webSearch` and
yields an empty result list, so the overall Solution 2 query still
returns: the top web result is null, the web result count is 0, and
the answer is the one generated from the file-search results. -/
theorem ragQuery_webSearch_failure_isolated (llm : String → String → String)
    (q : String) (docs : List RetrievedDoc) :
    ragWebSearch TavilyOutcome.err = [] ∧
    (ragQuery llm q docs TavilyOutcome.err).1.webTopResult = none ∧
    (ragQuery llm q docs TavilyOutcome.err).1.webTotalResults = 0 ∧
    (ragQuery llm q docs TavilyOutcome.err).1.answer =
      (generateAnswer llm q (ragFileSearch q docs)).1.answer :=
  ⟨rfl, rfl, rfl, rfl⟩

theorem mapGet_mapSet_self {α : Type} (st : List (String × α)) (t : String) (c : α) :
    mapGet (mapSet st t c) t = some c := by
  induction st with
  | nil => simp [mapSet, mapGet]
  | cons p rest ih =>
    obtain ⟨k, v⟩ := p
    by_cases hk : k = t
    · simp [mapSet, hk, mapGet]
    · simp [mapSet, hk, mapGet, ih]

theorem mapGet_mapSet_ne {α : Type} (st : List (String × α)) (t t' : String) (c : α)
    (h : t' ≠ t) : mapGet (mapSet st t c) t' = mapGet st t' := by
  induction st with
  | nil => simp [mapSet, mapGet, Ne.symm h]
  | cons p rest ih =>
    obtain ⟨k, v⟩ := p
    by_cases hk : k = t
    · subst hk
      simp [mapSet, mapGet, Ne.symm h]
    · simp [mapSet, hk, mapGet, ih]

theorem mapGet_mapDelete_ne {α : Type} (st : List (String × α)) (t t' : String)
    (h : t' ≠ t) : mapGet (mapDelete st t) t' = mapGet st t' := by
  induction st with
  | nil => simp [mapDelete]
  | cons p rest ih =>
    obtain ⟨k, v⟩ := p
    by_cases hk : k = t
    · subst hk
      simp [mapDelete, mapGet, Ne.symm h]
    · simp [mapDelete, hk, mapGet, ih]

theorem mapGet_eq_none_of_not_mem {α : Type} (st : List (String × α)) (t : String)
    (h : t ∉ st.map Prod.fst) : mapGet st t = none := by
  induction st with
  | nil => rfl
  | cons p rest ih =>
    obtain ⟨k, v⟩ := p
    simp only [List.map_cons, List.mem_cons, not_or] at h
    simp [mapGet, Ne.symm h.1, ih h.2]

theorem mapGet_mapDelete_self {α : Type} (st : List (String × α)) (t : String)
    (hN : (st.map Prod.fst).Nodup) : mapGet (mapDelete st t) t = none := by
  induction st with
  | nil => rfl
  | cons p rest ih =>
    obtain ⟨k, v⟩ := p
    simp only [List.map_cons, List.nodup_cons] at hN
    by_cases hk : k = t
    · subst hk
      simp only [mapDelete, if_pos rfl]
      exact mapGet_eq_none_of_not_mem _ _ hN.1
    · simp only [mapDelete, if_neg hk]
      simp only [mapGet, hk, if_false]
      exact ih hN.2

theorem mapGet_filter {α : Type} (p : String × α → Bool) (st : List (String × α))
    (t : String) (hN : (st.map Prod.fst).Nodup) :
    mapGet (st.filter p) t =
      (mapGet st t).bind (fun c => if p (t, c) then some c else none) := by
  induction st with
  | nil => simp [mapGet]
  | cons e rest ih =>
    obtain ⟨k, v⟩ := e
    simp only [List.map_cons, List.nodup_cons] at hN
    by_cases hk : k = t
    · subst hk
      by_cases hp : p (k, v)
      · simp [List.filter, hp, mapGet]
      · have hmem : k ∉ (rest.filter p).map Prod.fst := fun hmem =>
          hN.1 (List.map_subset Prod.fst (List.filter_sublist rest).subset hmem)
        rw [List.filter_cons, if_neg (by simpa using hp),
            mapGet_eq_none_of_not_mem _ _ hmem]
        simp [mapGet, hp]
    · by_cases hp : p (k, v) <;>
        simp [List.filter, hp, mapGet, hk, ih hN.2]

theorem length_filter_add_length_filter_not {α : Type} (p : α → Bool) (l : List α) :
    (l.filter p).length + (l.filter (fun a => !(p a))).length = l.length := by
  induction l with
  | nil => rfl
  | cons a rest ih =>
    by_cases hp : p a <;> simp [List.filter, hp] <;> omega

/-- C5: `cleanupOldConversations maxAgeHours` deletes exactly the
conversations last updated more than `maxAgeHours` hours before now,
keeps every more recently updated conversation unchanged, and returns
the number of deleted conversations. -/
theorem cleanupOldConversations_spec (st : Sol2Store) (maxAgeHours now : Nat)
    (hN : (st.map Prod.fst).Nodup) :
    (∀ t c, mapGet st t = some c →
        now - c.lastUpdated > maxAgeHours * 60 * 60 * 1000 →
        mapGet (cleanupOldConversations st maxAgeHours now).1 t = none) ∧
    (∀ t c, mapGet st t = some c →
        now - c.lastUpdated ≤ maxAgeHours * 60 * 60 * 1000 →
        mapGet (cleanupOldConversations st maxAgeHours now).1 t = some c) ∧
    (∀ t, mapGet st t = none →
        mapGet (cleanupOldConversations st maxAgeHours now).1 t = none) ∧
    (cleanupOldConversations st maxAgeHours now).2 +
        (cleanupOldConversations st maxAgeHours now).1.length = st.length := by
  refine ⟨?_, ?_, ?_, ?_⟩
  · intro t c hget hold
    rw [cleanupOldConversations, mapGet_filter _ _ _ hN, hget]
    simp
    omega
  · intro t c hget hrecent
    rw [cleanupOldConversations, mapGet_filter _ _ _ hN, hget]
    simp
    omega
  · intro t hget
    rw [cleanupOldConversations, mapGet_filter _ _ _ hN, hget]
    rfl
  · rw [cleanupOldConversations]
    simpa using
      length_filter_add_length_filter_not
        (fun p : String × Conversation Sol2Turn =>
          now - p.2.lastUpdated > maxAgeHours * 60 * 60 * 1000) st

/-- Concrete instance of the cleanup property: with a 24-hour horizon at
time 100000000, the thread last updated at time 0 is evicted, the one
updated at time 90000000 survives, and one conversation is reported
removed. -/
theorem cleanupOldConversations_spec_witness :
    mapGet (cleanupOldConversations
        [("old", ⟨"old", [], 0, 0⟩), ("fresh", ⟨"fresh", [], 0, 90000000⟩)]
        24 100000000).1 "old" = none ∧
    mapGet (cleanupOldConversations
        [("old", ⟨"old", [], 0, 0⟩), ("fresh", ⟨"fresh", [], 0, 90000000⟩)]
        24 100000000).1 "fresh" = some ⟨"fresh", [], 0, 90000000⟩ ∧
    (cleanupOldConversations
        [("old", ⟨"old", [], 0, 0⟩), ("fresh", ⟨"fresh", [], 0, 90000000⟩)]
        24 100000000).2 +
      (cleanupOldConversations
        [("old", ⟨"old", [], 0, 0⟩), ("fresh", ⟨"fresh", [], 0, 90000000⟩)]
        24 100000000).1.length = 2 := by
  obtain ⟨h1, h2, -, h4⟩ := cleanupOldConversations_spec
    [("old", ⟨"old", [], 0, 0⟩), ("fresh", ⟨"fresh", [], 0, 90000000⟩)]
    24 100000000 (by decide)
  exact ⟨h1 "old" ⟨"old", [], 0, 0⟩ rfl (by norm_num),
    h2 "fresh" ⟨"fresh", [], 0, 90000000⟩ rfl (by norm_num), h4⟩

/-- C8: history operations are isolated per thread id — saving a turn
under `t` leaves every other thread's entry untouched, and
`clearHistory t` removes exactly the entry under `t`, returning true
iff one existed. -/
theorem memory_isolation (st : Sol2Store) (t t2 : String) (turn : Sol2Turn)
    (now : Nat) (hne : t2 ≠ t) (hN : (st.map Prod.fst).Nodup) :
    mapGet (sol2SaveResponse st t turn now) t2 = mapGet st t2 ∧
    mapGet (clearHistory st t).2 t2 = mapGet st t2 ∧
    ((clearHistory st t).1 = true ↔ (mapGet st t).isSome = true) ∧
    mapGet (clearHistory st t).2 t = none := by
  refine ⟨?_, ?_, ?_, ?_⟩
  · rw [sol2SaveResponse]
    exact mapGet_mapSet_ne _ _ _ _ hne
  · by_cases hs : (mapGet st t).isSome
    · simp only [clearHistory, hs, if_true]
      exact mapGet_mapDelete_ne _ _ _ hne
    · simp [clearHistory, hs]
  · by_cases hs : (mapGet st t).isSome <;> simp [clearHistory, hs]
  · by_cases hs : (mapGet st t).isSome
    · simp only [clearHistory, hs, if_true]
      exact mapGet_mapDelete_self st t hN
    · simp only [clearHistory, hs, if_false]
      simpa using hs

/-- Concrete instance of the isolation property on a one-thread store. -/
theorem memory_isolation_witness :
    mapGet (sol2SaveResponse [("t1", ⟨"t1", [], 0, 0⟩)] "t1"
        ⟨"q", "fa", "wa", 1, 2, 0, 7, none, none⟩ 7) "t2" =
      mapGet [("t1", (⟨"t1", [], 0, 0⟩ : Conversation Sol2Turn))] "t2" ∧
    (clearHistory [("t1", ⟨"t1", [], 0, 0⟩)] "t1").1 = true ∧
    mapGet (clearHistory [("t1", ⟨"t1", [], 0, 0⟩)] "t1").2 "t1" = none := by
  obtain ⟨h1, -, h3, h4⟩ := memory_isolation [("t1", ⟨"t1", [], 0, 0⟩)] "t1" "t2"
    ⟨"q", "fa", "wa", 1, 2, 0, 7, none, none⟩ 7 (by decide) (by decide)
  exact ⟨h1, h3.mpr (by decide), h4⟩

/-- `n` successive saves of the same turn to thread `t` through the RAG
memory service, starting from an empty cache. -/
def sol2SaveIter (t : String) (turn : Sol2Turn) : Nat → Sol2Store
  | 0 => []
  | n + 1 => sol2SaveResponse (sol2SaveIter t turn n) t turn n

/-- `n` successive saves to thread `t` through the Solution 1 memory
service, starting from an empty cache. -/
def sol1SaveIter (t rid q fa wa : String) (u : QueryUsage) : Nat → Sol1Store
  | 0 => []
  | n + 1 => sol1SaveResponse (sol1SaveIter t rid q fa wa u n) t rid q fa wa u n

/-- `n` successive saves to thread `t` through the agent-style memory
service, starting from an empty cache. -/
def agentSaveIter (t q a : String) : Nat → AgentStore
  | 0 => []
  | n + 1 => saveConversation (agentSaveIter t q a n) t q a n

/-- C3 counterexample: after 21 saves to one thread through the
agent-style `saveConversation` — with no cleanup call and no explicit
clear — the stored history holds 20 turns, not 21: the oldest turn was
evicted by the 20-entry cap. -/
theorem history_cap_counterexample :
    ((mapGet (agentSaveIter "t" "q" "a" 21) "t").getD []).length = 20 ∧
    (20 : Nat) ≠ 21 :=
  ⟨by decide, by decide⟩

/-- C3 amended: the `saveResponse`-style memory services of both query
routes are unbounded — after `n` saves a thread holds exactly `n`
turns, none evicted — while the agent-style `saveConversation` keeps
only the 20 most recent turns, so after `n` saves the thread holds
`min n 20` turns. -/
theorem cache_growth (t rid q fa wa a : String) (u : QueryUsage)
    (turn : Sol2Turn) (n : Nat) :
    ((mapGet (sol2SaveIter t turn n) t).map fun c => c.history.length).getD 0 = n ∧
    ((mapGet (sol1SaveIter t rid q fa wa u n) t).map fun c => c.history.length).getD 0 = n ∧
    ((mapGet (agentSaveIter t q a n) t).getD []).length = min n 20 := by
  have hstep2 : ∀ (st : Sol2Store) (now : Nat),
      ((mapGet (sol2SaveResponse st t turn now) t).map fun c => c.history.length).getD 0 =
        ((mapGet st t).map fun c => c.history.length).getD 0 + 1 := by
    intro st now
    simp only [sol2SaveResponse]
    rw [mapGet_mapSet_self]
    cases h : mapGet st t <;> simp [h]
  have hstep1 : ∀ (st : Sol1Store) (now : Nat),
      ((mapGet (sol1SaveResponse st t rid q fa wa u now) t).map
          fun c => c.history.length).getD 0 =
        ((mapGet st t).map fun c => c.history.length).getD 0 + 1 := by
    intro st now
    simp only [sol1SaveResponse]
    rw [mapGet_mapSet_self]
    cases h : mapGet st t <;> simp [h]
  have hstep3 : ∀ (st : AgentStore) (now : Nat),
      ((mapGet (saveConversation st t q a now) t).getD []).length =
        min (((mapGet st t).getD []).length + 1) 20 := by
    intro st now
    simp only [saveConversation]
    rw [mapGet_mapSet_self]
    by_cases h :
        ((mapGet st t).getD [] ++ [({ query := q, answer := a, timestamp := now } : AgentTurn)]).length > 20
    · simp only [if_pos h]
      simp only [Option.getD_some, List.length_drop, List.length_append,
        List.length_cons, List.length_nil] at h ⊢
      omega
    · simp only [if_neg h]
      simp only [Option.getD_some, List.length_append, List.length_cons,
        List.length_nil] at h ⊢
      omega
  refine ⟨?_, ?_, ?_⟩
  · induction n with
    | zero => rfl
    | succ k ih =>
      simp only [sol2SaveIter]
      rw [hstep2, ih]
  · induction n with
    | zero => rfl
    | succ k ih =>
      simp only [sol1SaveIter]
      rw [hstep1, ih]
  · induction n with
    | zero => rfl
    | succ k ih =>
      simp only [agentSaveIter]
      rw [hstep3, ih]
      omega

theorem getLast?_append_singleton {α : Type} (l : List α) (x : α) :
    (l ++ [x]).getLast? = some x := by
  induction l with
  | nil => rfl
  | cons a rest ih =>
    rw [List.cons_append]
    cases hr : rest ++ [x] with
    | nil => exact absurd hr (by simp)
    | cons b l =>
      rw [hr] at ih
      rw [List.getLast?_cons_cons]
      exact ih

/-- Queries stored under a thread after the Solution 1 query route ran
(empty when the request was rejected). -/
def savedQueries (o : Sol1Outcome) (t : String) : List String :=
  match o with
  | Sol1Outcome.ok st _ => ((mapGet st t).map fun c => c.history.map Sol1Turn.query).getD []
  | Sol1Outcome.rejected _ => []

/-- A concrete file-search response used in closed instances. -/
def fileRespDemo : APIResponse :=
  { id := "resp_file_1", output_text := "svar fran dokumentet", usage := ⟨100, 50⟩ }

/-- A concrete web-search response used in closed instances. -/
def webRespDemo : APIResponse :=
  { id := "resp_web_1", output_text := "svar fran webben", usage := ⟨80, 40⟩ }

/-- C2 counterexample: a request whose raw query carries extra
whitespace is accepted, yet the turn saved to history holds the
sanitized text, which differs from the raw text as submitted. -/
theorem saved_query_counterexample :
    savedQueries
        (sol1QueryEndpoint
          ⟨JSInput.str "  vad   kostar  det ", JSInput.str "vs_1", JSInput.str "t1"⟩
          [] fileRespDemo webRespDemo 5).1 "t1" = ["vad kostar det"] ∧
    "vad kostar det" ≠ "  vad   kostar  det " :=
  ⟨by decide, by decide⟩

/-- C2 amended: for every accepted Solution 1 query, the turn appended
to the thread's history carries the sanitized query text (trimmed,
whitespace runs collapsed) — not the raw text — together with both
answer texts, the usage/cost estimate, and the timestamp. -/
theorem sol1_saved_turn (s : String) (vs tid : JSInput) (st : Sol1Store)
    (fr wr : APIResponse) (now : Nat)
    (h1 : (validateQuery (JSInput.str s)).valid = true)
    (h2 : (validateVectorStoreId vs).valid = true)
    (h3 : (validateThreadId (jsOrDefault tid)).valid = true) :
    (sol1QueryEndpoint ⟨JSInput.str s, vs, tid⟩ st fr wr now).1 =
      Sol1Outcome.ok
        (sol1SaveResponse st (jsOrDefaultStr tid)
          (responseServiceQuery fr wr now).fileResponseId (sanitizeQuery s)
          (responseServiceQuery fr wr now).fileAnswer
          (responseServiceQuery fr wr now).webAnswer
          (responseServiceQuery fr wr now).usage now)
        (responseServiceQuery fr wr now) ∧
    ((mapGet (sol1SaveResponse st (jsOrDefaultStr tid)
          (responseServiceQuery fr wr now).fileResponseId (sanitizeQuery s)
          (responseServiceQuery fr wr now).fileAnswer
          (responseServiceQuery fr wr now).webAnswer
          (responseServiceQuery fr wr now).usage now) (jsOrDefaultStr tid)).map
        fun c => c.history.getLast?) =
      some (some
        { responseId := (responseServiceQuery fr wr now).fileResponseId
          query := sanitizeQuery s
          fileAnswer := (responseServiceQuery fr wr now).fileAnswer
          webAnswer := (responseServiceQuery fr wr now).webAnswer
          usage := (responseServiceQuery fr wr now).usage
          timestamp := now }) := by
  constructor
  · simp only [sol1QueryEndpoint, h1, h2, h3, if_true]
  · simp only [sol1SaveResponse]
    rw [mapGet_mapSet_self]
    cases h : mapGet st (jsOrDefaultStr tid) <;>
      simp [h, getLast?_append_singleton]

/-- Closed instance of the saved-turn property at a concrete accepted
request. -/
theorem sol1_saved_turn_witness :
    (sol1QueryEndpoint
        ⟨JSInput.str "  vad   kostar  det ", JSInput.str "vs_1", JSInput.str "t1"⟩
        [] fileRespDemo webRespDemo 5).1 =
      Sol1Outcome.ok
        (sol1SaveResponse [] (jsOrDefaultStr (JSInput.str "t1"))
          (responseServiceQuery fileRespDemo webRespDemo 5).fileResponseId
          (sanitizeQuery "  vad   kostar  det ")
          (responseServiceQuery fileRespDemo webRespDemo 5).fileAnswer
          (responseServiceQuery fileRespDemo webRespDemo 5).webAnswer
          (responseServiceQuery fileRespDemo webRespDemo 5).usage 5)
        (responseServiceQuery fileRespDemo webRespDemo 5) :=
  (sol1_saved_turn "  vad   kostar  det " (JSInput.str "vs_1") (JSInput.str "t1")
    [] fileRespDemo webRespDemo 5 (by decide) (by decide) (by decide)).1

/-- C1 counterexample: a concrete accepted Solution 1 query passes
validation and runs the two remote searches, but its pipeline invokes
no LLM synthesis step at all — the claim that every accepted query is
followed by an LLM synthesis step fails on the Solution 1 pipeline. -/
theorem pipeline_no_synthesis_counterexample :
    (sol1QueryEndpoint ⟨JSInput.str "hej", JSInput.str "vs_1", JSInput.str "t1"⟩
        [] fileRespDemo webRespDemo 0).2.head? = some (Ev.validate true) ∧
    hasLLMStep
      (sol1QueryEndpoint ⟨JSInput.str "hej", JSInput.str "vs_1", JSInput.str "t1"⟩
        [] fileRespDemo webRespDemo 0).2 = false :=
  ⟨by decide, by decide⟩

/-- C1 amended: in both pipelines validation comes first and the
document-retrieval and web-search calls run inside one parallel await
that completes before the next step.  In the Solution 2 pipeline the
LLM synthesis step then runs, and its prompt context is exactly the
retrieved documents' contents joined with blank lines — the same trace
results for any web-search outcome.  The Solution 1 pipeline invokes
no local LLM synthesis step; its response is formatted directly from
the two remote responses. -/
theorem pipeline_order (s : String) (tid : JSInput) (llm : String → String → String)
    (docs : List RetrievedDoc) (w w2 : TavilyOutcome)
    (req : Sol1Request) (s1 : String) (st : Sol1Store) (fr wr : APIResponse) (now : Nat)
    (h2a : s ≠ "" ∧ (jsTrim s).length ≠ 0)
    (h2b : (validateThreadId (jsOrDefault tid)).valid = true)
    (hq : req.query = JSInput.str s1)
    (h1a : (validateQuery (JSInput.str s1)).valid = true)
    (h1b : (validateVectorStoreId req.vectorStoreId).valid = true)
    (h1c : (validateThreadId (jsOrDefault req.threadId)).valid = true) :
    (sol2QueryEndpoint (JSInput.str s) tid llm docs w).2 =
      [Ev.validate true, Ev.startFileSearch, Ev.startWebSearch, Ev.endFileSearch,
       Ev.endWebSearch,
       Ev.llmSynthesis (String.intercalate "\n\n" (docs.map RetrievedDoc.content))
         (sanitizeQuery s),
       Ev.respond] ∧
    (sol2QueryEndpoint (JSInput.str s) tid llm docs w).2 =
      (sol2QueryEndpoint (JSInput.str s) tid llm docs w2).2 ∧
    (sol1QueryEndpoint req st fr wr now).2 =
      [Ev.validate true, Ev.startFileSearch, Ev.startWebSearch, Ev.endFileSearch,
       Ev.endWebSearch, Ev.respond] ∧
    hasLLMStep (sol1QueryEndpoint req st fr wr now).2 = false := by
  have htr : ∀ w' : TavilyOutcome,
      (sol2QueryEndpoint (JSInput.str s) tid llm docs w').2 =
        [Ev.validate true, Ev.startFileSearch, Ev.startWebSearch, Ev.endFileSearch,
         Ev.endWebSearch,
         Ev.llmSynthesis (String.intercalate "\n\n" (docs.map RetrievedDoc.content))
           (sanitizeQuery s),
         Ev.respond] := by
    intro w'
    simp only [sol2QueryEndpoint, h2a, h2b, if_true, and_true, ne_eq,
      not_false_eq_true, ragQuery, ragFileSearch, generateAnswer]
    simp [h2a.1, h2a.2]
  have hs1 : (sol1QueryEndpoint req st fr wr now).2 =
      [Ev.validate true, Ev.startFileSearch, Ev.startWebSearch, Ev.endFileSearch,
       Ev.endWebSearch, Ev.respond] := by
    obtain ⟨q0, v0, t0⟩ := req
    simp only at hq
    subst hq
    simp only [sol1QueryEndpoint, h1a, h1b, h1c, if_true]
  refine ⟨htr w, (htr w).trans (htr w2).symm, hs1, ?_⟩
  rw [hs1]
  rfl

/-- Closed instance of the pipeline-order property: one accepted
Solution 2 query over one concrete document and one accepted
Solution 1 query. -/
theorem pipeline_order_witness :
    (sol2QueryEndpoint (JSInput.str " hur  mycket ") (JSInput.str "t1")
        (fun _ _ => "svar") [⟨"kap 1", "FK.pdf"⟩, ⟨"kap 2", "FK.pdf"⟩]
        (TavilyOutcome.ok [])).2 =
      [Ev.validate true, Ev.startFileSearch, Ev.startWebSearch, Ev.endFileSearch,
       Ev.endWebSearch,
       Ev.llmSynthesis
         (String.intercalate "\n\n"
           (([⟨"kap 1", "FK.pdf"⟩, ⟨"kap 2", "FK.pdf"⟩] : List RetrievedDoc).map
             RetrievedDoc.content))
         (sanitizeQuery " hur  mycket "),
       Ev.respond] ∧
    (sol2QueryEndpoint (JSInput.str " hur  mycket ") (JSInput.str "t1")
        (fun _ _ => "svar") [⟨"kap 1", "FK.pdf"⟩, ⟨"kap 2", "FK.pdf"⟩]
        (TavilyOutcome.ok [])).2 =
      (sol2QueryEndpoint (JSInput.str " hur  mycket ") (JSInput.str "t1")
        (fun _ _ => "svar") [⟨"kap 1", "FK.pdf"⟩, ⟨"kap 2", "FK.pdf"⟩]
        TavilyOutcome.err).2 ∧
    (sol1QueryEndpoint ⟨JSInput.str "hur mycket", JSInput.str "vs_9", JSInput.missing⟩
        [] fileRespDemo webRespDemo 3).2 =
      [Ev.validate true, Ev.startFileSearch, Ev.startWebSearch, Ev.endFileSearch,
       Ev.endWebSearch, Ev.respond] ∧
    hasLLMStep
      (sol1QueryEndpoint ⟨JSInput.str "hur mycket", JSInput.str "vs_9", JSInput.missing⟩
        [] fileRespDemo webRespDemo 3).2 = false :=
  pipeline_order " hur  mycket " (JSInput.str "t1") (fun _ _ => "svar")
    [⟨"kap 1", "FK.pdf"⟩, ⟨"kap 2", "FK.pdf"⟩] (TavilyOutcome.ok []) TavilyOutcome.err
    ⟨JSInput.str "hur mycket", JSInput.str "vs_9", JSInput.missing⟩ "hur mycket"
    [] fileRespDemo webRespDemo 3
    ⟨by decide, by decide⟩ (by decide) rfl (by decide) (by decide) (by decide)

theorem ragInit_ok_ready (a b : Sol2InitState) (acts : List InitAct) (e d : Bool)
    (h : ragInit a e d = Except.ok (b, acts)) : b.ragReady = true := by
  simp only [ragInit] at h
  split at h
  · cases h
    assumption
  · split at h
    · cases h
      rfl
    · split at h
      · cases h
      · cases h
        rfl

theorem loadPDF_ok_state (p q : Sol2InitState) (pacts : List InitAct) (vs : Nat)
    (e d : Bool) (h : loadPDF p e d = Except.ok (q, pacts, vs)) :
    q.pdfReady = true ∧ q.vectorStore = some vs := by
  simp only [loadPDF] at h
  split at h
  · rename_i hc
    cases h
    obtain ⟨v, hv⟩ := Option.isSome_iff_exists.mp hc.2
    exact ⟨hc.1, by simp [hv]⟩
  · split at h
    · cases h
    · split at h
      · cases h
      · cases h
        exact ⟨rfl, rfl⟩

/-- C10: Solution 2 initialization is idempotent.  After a successful
`RAGService.initialize` the service is marked initialized and a second
call returns the very same state with no resource-creating or remote
actions; likewise, after a successful `PDFService.loadPDF` a second
call returns the cached vector store unchanged with no actions,
regardless of the later environment or data oracles. -/
theorem init_idempotent (a b : Sol2InitState) (acts : List InitAct)
    (e1 d1 e2 d2 : Bool) (p q : Sol2InitState) (pacts : List InitAct) (vs : Nat)
    (e3 d3 e4 d4 : Bool)
    (h : ragInit a e1 d1 = Except.ok (b, acts))
    (hp : loadPDF p e3 d3 = Except.ok (q, pacts, vs)) :
    ragInit b e2 d2 = Except.ok (b, []) ∧
    loadPDF q e4 d4 = Except.ok (q, [], vs) := by
  constructor
  · have hb := ragInit_ok_ready a b acts e1 d1 h
    rw [ragInit, if_pos hb]
  · have hq := loadPDF_ok_state p q pacts vs e3 d3 hp
    rw [loadPDF, if_pos ⟨hq.1, by simp [hq.2]⟩]
    rw [hq.2]
    rfl

/-- Closed instance of the idempotence property: initializing from the
fresh state succeeds, and the follow-up calls (with different oracle
values) are no-ops on the reached states. -/
theorem init_idempotent_witness :
    ragInit ⟨5, some 0, some 1, true, true, some 2, some 3, some 4⟩ false false =
      Except.ok (⟨5, some 0, some 1, true, true, some 2, some 3, some 4⟩, []) ∧
    loadPDF ⟨3, none, none, false, true, some 0, some 1, some 2⟩ false false =
      Except.ok (⟨3, none, none, false, true, some 0, some 1, some 2⟩, [], 2) :=
  init_idempotent ⟨0, none, none, false, false, none, none, none⟩
    ⟨5, some 0, some 1, true, true, some 2, some 3, some 4⟩
    [InitAct.createLLM, InitAct.createTavily, InitAct.createClient, InitAct.checkData,
     InitAct.createEmbeddings, InitAct.connectStore]
    true true false false
    ⟨0, none, none, false, false, none, none, none⟩
    ⟨3, none, none, false, true, some 0, some 1, some 2⟩
    [InitAct.createClient, InitAct.checkData, InitAct.createEmbeddings,
     InitAct.connectStore]
    2 true true false false rfl rfl

end FK
